import Mathlib

/-!
Verification of the job-application workflow of the Job-Protal repository:
the application form validation and submission logic
(src/components/forms/ApplicationForm.tsx) and the application status
viewer (src/app/user/applications/page.tsx), embedded shallowly.
-/

namespace JobPortal

/-! ## JavaScript value model

JSON values produced by response.json together with JS truthiness,
property access and string conversion, as needed by the response-shape
checks in the source. -/

/-- Model of a parsed JSON/JavaScript value.  Numbers are modelled as
integers; no claim depends on non-integral numerics. -/
inductive JsValue where
  | vNull : JsValue
  | vBool : Bool → JsValue
  | vNum : Int → JsValue
  | vStr : String → JsValue
  | vObj : List (String × JsValue) → JsValue
  | vArr : List JsValue → JsValue
deriving Repr

namespace JsValue

/-- JavaScript truthiness of a value. -/
def truthy : JsValue → Bool
  | vNull => false
  | vBool b => b
  | vNum n => n != 0
  | vStr s => !s.isEmpty
  | vObj _ => true
  | vArr _ => true

/-- Property access a.k on an object; none models undefined (missing
field, or access on a non-object). -/
def getField : JsValue → String → Option JsValue
  | vObj fields, k => fields.lookup k
  | _, _ => none

/-- Truthiness of a possibly-undefined value (undefined is falsy). -/
def truthyOpt : Option JsValue → Bool
  | none => false
  | some v => truthy v

mutual

/-- JavaScript String() conversion, used when a non-string value is fed
to new Error(...). -/
def toMessage : JsValue → String
  | vNull => "null"
  | vBool true => "true"
  | vBool false => "false"
  | vNum n => toString n
  | vStr s => s
  | vObj _ => "[object Object]"
  | vArr l => String.intercalate "," (toMessageList l)

/-- Array elements converted for Array.prototype.toString. -/
def toMessageList : List JsValue → List String
  | [] => []
  | v :: vs => toMessage v :: toMessageList vs

end

end JsValue

/-! ## String helpers mirroring the JavaScript string API -/

/-- Character-level model of the JS \S regex class: any non-whitespace
character. -/
def nonSpace (c : Char) : Bool := !c.isWhitespace

/-- Decides whether the pattern list is a prefix of the text list,
comparing characters one by one. -/
def charsPrefix : List Char → List Char → Bool
  | [], _ => true
  | _ :: _, [] => false
  | p :: ps, c :: cs => p == c && charsPrefix ps cs

/-- Decides whether the pattern list occurs as a contiguous infix of the
text list. -/
def charsInfix (pat : List Char) : List Char → Bool
  | [] => pat.isEmpty
  | c :: cs => charsPrefix pat (c :: cs) || charsInfix pat cs

/-- Model of JS s.includes(pat): pat occurs as a substring of s. -/
def strIncludes (s pat : String) : Bool := charsInfix pat.data s.data

/-- Model of JS s.toLowerCase(), character by character. -/
def strToLower (s : String) : String := ⟨s.data.map Char.toLower⟩

/-- Model of the JS logical-or idiom s || d on strings: the empty string
is falsy, so it falls through to the default. -/
def strOr (s d : String) : String := if s.isEmpty then d else s

/-- Model of JS s.trim(): whitespace removed from both ends. -/
def strTrim (s : String) : String :=
  ⟨((s.data.dropWhile Char.isWhitespace).reverse.dropWhile Char.isWhitespace).reverse⟩

/-! ## The email regular expression

The source tests emails with /\S+@\S+\.\S+/.test(email): an unanchored
search for one-or-more non-space characters, an at sign, one-or-more
non-space characters, a dot, and one-or-more non-space characters.
The matcher below mirrors the regex structure piecewise. -/

/-- Matches the trailing \S+ of the regex at the start of the list (the
match may end before the string does, so one non-space character
suffices). -/
def matchTailSeg : List Char → Bool
  | [] => false
  | c :: _ => nonSpace c

/-- Matches \.\S+ at the start of the list. -/
def matchDotSeg : List Char → Bool
  | [] => false
  | c :: rest => c == '.' && matchTailSeg rest

/-- Matches \S+ followed by a continuation: one or more non-space
characters are consumed, after which the continuation must match. -/
def plusNonSpaceThen (k : List Char → Bool) : List Char → Bool
  | [] => false
  | c :: rest => nonSpace c && (k rest || plusNonSpaceThen k rest)

/-- Matches \S+\.\S+ at the start of the list. -/
def matchMidSeg : List Char → Bool := plusNonSpaceThen matchDotSeg

/-- Matches @\S+\.\S+ at the start of the list. -/
def matchAtSeg : List Char → Bool
  | [] => false
  | c :: rest => c == '@' && matchMidSeg rest

/-- Matches \S+@\S+\.\S+ at the start of the list. -/
def matchEmailHere : List Char → Bool := plusNonSpaceThen matchAtSeg

/-- Unanchored regex search: the pattern matches starting at some
position of the list. -/
def emailSearch : List Char → Bool
  | [] => false
  | c :: rest => matchEmailHere (c :: rest) || emailSearch rest

/-- Model of /\S+@\S+\.\S+/.test(email) from validateForm. -/
def emailRegexTest (s : String) : Bool := emailSearch s.data

/-! ## Form data and validation (ApplicationForm.tsx, validateForm) -/

/-- The form state of ApplicationForm: fullName, email, phone, resume
(a file-name placeholder) and coverLetter. -/
structure FormFields where
  fullName : String
  email : String
  phone : String
  resume : String
  coverLetter : String
deriving DecidableEq, Repr

/-- The error record produced by validateForm: at most one message per
checked field (coverLetter is never checked).  A some value models the
presence of that key in the newErrors object. -/
structure FormErrors where
  fullName : Option String
  email : Option String
  phone : Option String
  resume : Option String
deriving DecidableEq, Repr

/-- Decides Object.keys(newErrors).length === 0 for the error record. -/
def FormErrors.isEmpty (e : FormErrors) : Bool :=
  e.fullName.isNone && e.email.isNone && e.phone.isNone && e.resume.isNone

/-- Shallow embedding of validateForm (ApplicationForm.tsx lines
60-83): each field is checked independently and all failing fields are
reported in the single returned record. -/
def validateForm (fd : FormFields) : FormErrors :=
  { fullName := if (strTrim fd.fullName).isEmpty then some "Full name is required" else none
    email :=
      if (strTrim fd.email).isEmpty then some "Email is required"
      else if !emailRegexTest fd.email then some "Email is invalid"
      else none
    phone := if (strTrim fd.phone).isEmpty then some "Phone number is required" else none
    resume := if fd.resume.isEmpty then some "Resume is required" else none }

/-! ## Status mapping (page.tsx, mapStatus) -/

/-- Shallow embedding of mapStatus (page.tsx lines 44-58): the switch
maps the backend status vocabulary onto the UI vocabulary, with the
default branch returning applied. -/
def mapStatus (status : String) : String :=
  if status = "pending" then "applied"
  else if status = "reviewed" then "applied"
  else if status = "interview" then "interview"
  else if status = "rejected" then "rejected"
  else if status = "accepted" then "offer"
  else "applied"

/-! ## Application records and client-side filtering (page.tsx) -/

/-- The nested job reference of an application record. -/
structure JobInfo where
  title : String
  company : String
  location : String
  type : Option String
  logo : Option String
deriving DecidableEq, Repr

/-- An application record as typed by the Application interface in
page.tsx.  The status is a string; the backend vocabulary is a subset of
it and mapStatus has an explicit default for anything else. -/
structure Application where
  id : String
  jobId : String
  fullName : String
  email : String
  phone : String
  resume : String
  coverLetter : Option String
  appliedDate : String
  status : String
  job : Option JobInfo
deriving DecidableEq, Repr

/-- Evaluates app.job?.title with undefined collapsed to the empty
string, as the filter sources do via app.job?.title || ''. -/
def jobTitleOrEmpty (app : Application) : String :=
  match app.job with
  | some j => j.title
  | none => ""

/-- Evaluates app.job?.company || '' as used by the filter. -/
def jobCompanyOrEmpty (app : Application) : String :=
  match app.job with
  | some j => j.company
  | none => ""

/-- Evaluates app.job?.location || '' as used by the filter. -/
def jobLocationOrEmpty (app : Application) : String :=
  match app.job with
  | some j => j.location
  | none => ""

/-- Shallow embedding of the filter callback of filteredApplications
(page.tsx lines 177-197): first the status filter, then, when a search
query is present, a case-insensitive substring search over title,
company and location. -/
def applicationFilter (activeFilter searchQuery : String) (app : Application) : Bool :=
  if activeFilter != "all" && mapStatus app.status != activeFilter then false
  else if !searchQuery.isEmpty then
    let query := strToLower searchQuery
    strIncludes (strToLower (jobTitleOrEmpty app)) query ||
    strIncludes (strToLower (jobCompanyOrEmpty app)) query ||
    strIncludes (strToLower (jobLocationOrEmpty app)) query
  else true

/-- The filteredApplications computation: applications.filter(...). -/
def filteredApplications (activeFilter searchQuery : String)
    (apps : List Application) : List Application :=
  apps.filter (applicationFilter activeFilter searchQuery)

/-- A row of the applications table produced by
formatApplicationsForTable. -/
structure TableRow where
  id : String
  title : String
  company : String
  location : String
  status : String
  date : String
deriving DecidableEq, Repr

/-- Shallow embedding of formatApplicationsForTable (page.tsx lines
32-41).  The locale date rendering new Date(d).toLocaleDateString() is
an external effect and is passed in as fmtDate. -/
def formatApplicationsForTable (fmtDate : String → String)
    (apps : List Application) : List TableRow :=
  apps.map fun app =>
    { id := app.id
      title := strOr (jobTitleOrEmpty app) "Unknown Job"
      company := strOr (jobCompanyOrEmpty app) "Unknown Company"
      location := strOr (jobLocationOrEmpty app) "Unknown Location"
      status := mapStatus app.status
      date := fmtDate app.appliedDate }

/-! ## Network model

A fetch either throws (transport failure, carrying the thrown error
message) or yields a response characterised by its HTTP status, its
content-type header, and the result of response.json() — either the
parsed value or the message of the parse error it throws. -/

/-- An HTTP response as observed by the client code. -/
structure NetResponse where
  status : Nat
  contentType : Option String
  jsonBody : Except String JsValue

/-- Outcome of an awaited fetch call. -/
inductive FetchOutcome where
  | fail : String → FetchOutcome
  | ok : NetResponse → FetchOutcome

/-- Model of Response.ok: status in the inclusive range 200-299. -/
def respOk (status : Nat) : Bool := 200 ≤ status && status ≤ 299

/-- Evaluates contentType && contentType.includes('application/json'):
false when the header is absent or lacks the JSON type. -/
def ctIncludesJson : Option String → Bool
  | none => false
  | some ct => strIncludes ct "application/json"

/-! ## Submission protocol (ApplicationForm.tsx, handleSubmit) -/

/-- The error message thrown on a non-ok status (lines 170-175):
data && data.error ? data.error : a generic message naming the
status. -/
def submitErrMsg (data : JsValue) (status : Nat) : String :=
  match data.getField "error" with
  | some v =>
      if v.truthy then v.toMessage
      else "Server returned error (" ++ toString status ++ ")"
  | none => "Server returned error (" ++ toString status ++ ")"

/-- Response validation of handleSubmit (lines 149-175): content-type
check, then body parse, then HTTP status check. -/
def submitterValidate (r : NetResponse) : Except String JsValue :=
  if !ctIncludesJson r.contentType then
    .error ("Server returned non-JSON response (" ++ toString r.status
      ++ "). Please check server logs.")
  else
    match r.jsonBody with
    | .error _ => .error "Failed to parse server response. Please try again."
    | .ok data =>
        if !respOk r.status then .error (submitErrMsg data r.status)
        else .ok data

/-- Evaluates the truthiness test !(!data || !data.application ||
!data.application.id) guarding the success path (lines 177-181). -/
def validShape (data : JsValue) : Bool :=
  data.truthy && JsValue.truthyOpt (data.getField "application") &&
    JsValue.truthyOpt ((data.getField "application").bind fun a => a.getField "id")

/-- The value data.application.id extracted on success. -/
def appIdOf (data : JsValue) : JsValue :=
  ((data.getField "application").bind fun a => a.getField "id").getD JsValue.vNull

/-- Full response processing of handleSubmit: validation followed by
the response-shape check, yielding the new application id. -/
def processResponse (r : NetResponse) : Except String JsValue :=
  match submitterValidate r with
  | .error m => .error m
  | .ok data =>
      if !validShape data then .error "Server returned invalid data. Please try again."
      else .ok (appIdOf data)

/-- The JSON body sent to either endpoint:
{jobId: job.id, ...formData}. -/
structure Payload where
  jobId : String
  fullName : String
  email : String
  phone : String
  resume : String
  coverLetter : String
deriving DecidableEq, Repr

/-- Builds the request payload from the target job id and the form
fields. -/
def mkPayload (jobId : String) (fd : FormFields) : Payload :=
  ⟨jobId, fd.fullName, fd.email, fd.phone, fd.resume, fd.coverLetter⟩

/-- Terminal state of one handleSubmit run. -/
inductive SubmitResult where
  | validationFailed : FormErrors → SubmitResult
  | missingJobId : SubmitResult
  | completed : JsValue → Bool → SubmitResult
  | failed : String → Bool → SubmitResult
deriving Repr

/-- Observable outcome of handleSubmit: the fetch calls attempted (url
and payload, in order), whether the test-mode alert was shown, and the
terminal state. -/
structure SubmitOutcome where
  calls : List (String × Payload)
  alertTestMode : Bool
  result : SubmitResult

/-- Network environment of one submission: behaviour of the primary and
the fallback endpoint. -/
structure SubmitEnv where
  primary : FetchOutcome
  fallback : FetchOutcome

/-- The outer catch of handleSubmit stores error.message || a generic
default. -/
def catchMsg (m : String) : String :=
  if m.isEmpty then "Failed to submit application. Please try again." else m

/-- Processes the response obtained from whichever endpoint answered
and produces the outcome; the test-mode alert fires only on the success
path and only when the fallback was used (lines 186-189). -/
def finishSubmit (calls : List (String × Payload)) (usedFallback : Bool)
    (r : NetResponse) : SubmitOutcome :=
  match processResponse r with
  | .error m => ⟨calls, false, .failed (catchMsg m) usedFallback⟩
  | .ok idv => ⟨calls, usedFallback, .completed idv usedFallback⟩

/-- Shallow embedding of handleSubmit (ApplicationForm.tsx lines
85-206): validation guard, job-id guard, primary fetch with a single
fallback retry on transport failure, then response processing. -/
def handleSubmit (jobId : String) (fd : FormFields) (env : SubmitEnv) : SubmitOutcome :=
  let errs := validateForm fd
  if !errs.isEmpty then ⟨[], false, .validationFailed errs⟩
  else if jobId.isEmpty then ⟨[], false, .missingJobId⟩
  else
    let payload := mkPayload jobId fd
    match env.primary with
    | .ok r => finishSubmit [("/api/applications", payload)] false r
    | .fail _ =>
        match env.fallback with
        | .ok r =>
            finishSubmit [("/api/applications", payload),
              ("/api/test-application", payload)] true r
        | .fail m2 =>
            ⟨[("/api/applications", payload), ("/api/test-application", payload)],
              false, .failed (catchMsg m2) false⟩

/-! ## Status viewer fetch (page.tsx, fetchApplications) -/

/-- Response validation of the viewer (page.tsx lines 96-110): HTTP
status check, then content-type check, then body parse. -/
def viewerValidate (r : NetResponse) : Except String JsValue :=
  if !respOk r.status then
    .error ("Failed to fetch applications: " ++ toString r.status)
  else if !ctIncludesJson r.contentType then
    .error "Server returned non-JSON response"
  else r.jsonBody

/-- Model of the unguarded JS property access data.applications
(page.tsx line 113): on a null value the access throws a TypeError
(caught by the inner catch; the exact message is host-dependent, a
representative one is fixed here); on any other non-object value it
yields undefined; on an object it looks the field up. -/
def getFieldUnguarded (v : JsValue) (k : String) : Except String (Option JsValue) :=
  match v with
  | JsValue.vNull =>
      Except.error ("TypeError: Cannot read properties of null (reading '" ++ k ++ "')")
  | JsValue.vObj fields => Except.ok (fields.lookup k)
  | _ => Except.ok none

/-- Evaluates data.applications && Array.isArray(data.applications) on
the already-read field value (lines 113-118): an array yields its
elements, anything else yields the empty list. -/
def appsArrayOfField : Option JsValue → List JsValue
  | some (JsValue.vArr l) => l
  | _ => []

/-- The inner try of fetchApplications: the fetch itself, response
validation, the unguarded data.applications access, and the
applications-array extraction; an error is whatever message the inner
catch receives. -/
def innerFetch : FetchOutcome → Except String (List JsValue)
  | .fail m => .error m
  | .ok r =>
      match viewerValidate r with
      | .error m => .error m
      | .ok data =>
          match getFieldUnguarded data "applications" with
          | .error m => .error m
          | .ok field => .ok (appsArrayOfField field)

/-- The hard-coded mock dataset substituted by the inner catch (page.tsx
lines 128-161), as the JSON values the state receives.  The two
timestamps come from the ambient clock and are passed in. -/
def mockApplicationsJs (nowIso weekAgoIso : String) : List JsValue :=
  [JsValue.vObj [("id", JsValue.vStr "app1"), ("jobId", JsValue.vStr "1"),
    ("fullName", JsValue.vStr "John Doe"), ("email", JsValue.vStr "john@example.com"),
    ("phone", JsValue.vStr "1234567890"), ("resume", JsValue.vStr "resume.pdf"),
    ("appliedDate", JsValue.vStr nowIso), ("status", JsValue.vStr "pending"),
    ("job", JsValue.vObj [("title", JsValue.vStr "Frontend Developer"),
      ("company", JsValue.vStr "Tech Corp"), ("location", JsValue.vStr "Remote"),
      ("type", JsValue.vStr "Full-time")])],
   JsValue.vObj [("id", JsValue.vStr "app2"), ("jobId", JsValue.vStr "2"),
    ("fullName", JsValue.vStr "John Doe"), ("email", JsValue.vStr "john@example.com"),
    ("phone", JsValue.vStr "1234567890"), ("resume", JsValue.vStr "resume.pdf"),
    ("appliedDate", JsValue.vStr weekAgoIso), ("status", JsValue.vStr "interview"),
    ("job", JsValue.vObj [("title", JsValue.vStr "Backend Developer"),
      ("company", JsValue.vStr "Software Inc"), ("location", JsValue.vStr "New York"),
      ("type", JsValue.vStr "Full-time")])]]

/-- Environment of one viewer fetch: the stored auth token, the fetch
behaviour, and the two clock readings the mock dataset embeds. -/
structure ViewerEnv where
  token : Option String
  fetch : FetchOutcome
  nowIso : String
  weekAgoIso : String

/-- Observable outcome of one fetchApplications run: the applications
state it leaves, the page-level error state, and the message received
by the inner catch (the independently recorded fetch failure), if
any. -/
structure ViewerOutcome where
  apps : List JsValue
  pageError : Option String
  fetchErrorLog : Option String

/-- Shallow embedding of fetchApplications (page.tsx lines 76-171):
a missing token throws past the inner try to the outer catch, which
sets the page error; any inner failure is caught by the inner catch,
which logs it and substitutes the mock dataset; a validated response
replaces the list with its applications array (or the empty list). -/
def fetchApplications (env : ViewerEnv) : ViewerOutcome :=
  match env.token with
  | none => ⟨[], some "Failed to load your applications. Please try again later.", none⟩
  | some _ =>
      match innerFetch env.fetch with
      | .ok elems => ⟨elems, none, none⟩
      | .error m => ⟨mockApplicationsJs env.nowIso env.weekAgoIso, none, some m⟩

/-! ## Specification-side predicates for the filtering claims -/

/-- Status predicate as the spec words it: the all filter accepts
everything, any other filter compares against the mapped UI status. -/
def specStatusPred (activeFilter : String) (app : Application) : Bool :=
  activeFilter == "all" || mapStatus app.status == activeFilter

/-- Search predicate as the spec words it: satisfied exactly when the
query is empty or is a case-insensitive substring of the title, the
company or the location. -/
def specSearchPred (searchQuery : String) (app : Application) : Bool :=
  searchQuery.isEmpty ||
  strIncludes (strToLower (jobTitleOrEmpty app)) (strToLower searchQuery) ||
  strIncludes (strToLower (jobCompanyOrEmpty app)) (strToLower searchQuery) ||
  strIncludes (strToLower (jobLocationOrEmpty app)) (strToLower searchQuery)

/-- A sample record used to witness the filtering claims. -/
def sampleApp : Application :=
  { id := "a1", jobId := "1", fullName := "Jane Doe", email := "jane@x.co"
    phone := "555", resume := "cv.pdf", coverLetter := none
    appliedDate := "2024-01-02", status := "accepted"
    job := some ⟨"Frontend Developer", "Tech Corp", "Remote", some "Full-time", none⟩ }

/-- A sample record whose nested job reference is null. -/
def sampleNullJobApp : Application :=
  { id := "a2", jobId := "2", fullName := "Jane Doe", email := "jane@x.co"
    phone := "555", resume := "cv.pdf", coverLetter := none
    appliedDate := "2024-01-02", status := "pending", job := none }

/-- Declarative reading of the email pattern, following the spec text:
the character data contains, somewhere, one-or-more non-space
characters, an at sign, one-or-more non-space characters, a dot, and
one-or-more non-space characters (of which the first suffices, the
remainder of the string being unconstrained). -/
def EmailPatternSpec (s : String) : Prop :=
  ∃ (pre a b : List Char) (c : Char) (post : List Char),
    s.data = pre ++ (a ++ ('@' :: (b ++ ('.' :: (c :: post))))) ∧
    a ≠ [] ∧ b ≠ [] ∧
    (∀ x ∈ a, nonSpace x = true) ∧ (∀ x ∈ b, nonSpace x = true) ∧
    nonSpace c = true

/-- Decides whether the fullName field is omitted (empty after
trimming), the notion of omission the validation claims use. -/
def fullNameOmitted (fd : FormFields) : Bool := (strTrim fd.fullName).isEmpty

/-- Decides whether the email field is omitted (empty after trimming). -/
def emailOmitted (fd : FormFields) : Bool := (strTrim fd.email).isEmpty

/-- Decides whether the phone field is omitted (empty after trimming). -/
def phoneOmitted (fd : FormFields) : Bool := (strTrim fd.phone).isEmpty

/-- Decides whether the resume field is omitted (no file chosen). -/
def resumeOmitted (fd : FormFields) : Bool := fd.resume.isEmpty

/-- Decides whether all four required fields are well-formed: fullName,
email and phone non-empty after trimming, the email passing the
pattern test, and a resume chosen. -/
def wellFormedInput (fd : FormFields) : Bool :=
  !fullNameOmitted fd && !emailOmitted fd && emailRegexTest fd.email &&
    !phoneOmitted fd && !resumeOmitted fd

/-- Reads the fallback-used flag a terminal submission state carries. -/
def SubmitResult.usedFlag : SubmitResult → Bool
  | .completed _ b => b
  | .failed _ b => b
  | _ => false

/-- The fallback response of the C4 scenario: status 201, JSON content
type, body with application id x1. -/
def fallbackScenarioResponse : NetResponse :=
  ⟨201, some "application/json",
    Except.ok (JsValue.vObj [("application", JsValue.vObj [("id", JsValue.vStr "x1")])])⟩

/-- A sample form input with every field well-formed. -/
def sampleGoodForm : FormFields := ⟨"Jane", "a@b.com", "555", "cv.pdf", ""⟩

/-- A viewer environment whose read endpoint answers with a text/html
content type. -/
def sampleBadCtEnv : ViewerEnv :=
  ⟨some "tok", FetchOutcome.ok ⟨200, some "text/html", Except.ok JsValue.vNull⟩,
    "2024-01-01T00:00:00Z", "2023-12-25T00:00:00Z"⟩

/-- A viewer environment whose read endpoint answers successfully but
without an applications array in the body. -/
def sampleNoArrayEnv : ViewerEnv :=
  ⟨some "tok",
    FetchOutcome.ok ⟨200, some "application/json", Except.ok (JsValue.vObj [])⟩,
    "2024-01-01T00:00:00Z", "2023-12-25T00:00:00Z"⟩

/-- A viewer environment whose read endpoint answers successfully with
the parsed body null, on which the unguarded applications access
throws. -/
def sampleNullBodyEnv : ViewerEnv :=
  ⟨some "tok",
    FetchOutcome.ok ⟨200, some "application/json", Except.ok JsValue.vNull⟩,
    "2024-01-01T00:00:00Z", "2023-12-25T00:00:00Z"⟩

/-- Pointwise, the filter callback is the conjunction of the status
predicate and the search predicate. -/
theorem applicationFilter_eq_conj (f q : String) (a : Application) :
    applicationFilter f q a = (specStatusPred f a && specSearchPred q a) := by
  by_cases hf : f = "all" <;> by_cases hm : mapStatus a.status = f <;>
    by_cases hq : q.isEmpty <;>
      simp [applicationFilter, specStatusPred, specSearchPred, hf, hm, hq]

/-- Filtering a list twice by the same boolean predicate changes
nothing. -/
theorem filter_self_idem {α : Type} (p : α → Bool) (l : List α) :
    (l.filter p).filter p = l.filter p := by
  induction l with
  | nil => rfl
  | cons a t ih =>
      by_cases h : p a = true <;> simp [List.filter_cons, h, ih]

/-- C2: mapStatus is a total deterministic function from backend status
strings to the UI vocabulary: pending and reviewed map to applied,
interview to interview, rejected to rejected, accepted to offer, and
every string outside this vocabulary maps to applied; every output lies
in the UI vocabulary. -/
theorem mapStatus_total_spec :
    mapStatus "pending" = "applied" ∧ mapStatus "reviewed" = "applied" ∧
    mapStatus "interview" = "interview" ∧ mapStatus "rejected" = "rejected" ∧
    mapStatus "accepted" = "offer" ∧
    (∀ s : String,
      s ∉ (["pending", "reviewed", "interview", "rejected", "accepted"] : List String) →
      mapStatus s = "applied") ∧
    (∀ s : String,
      mapStatus s ∈ (["applied", "interview", "rejected", "offer"] : List String)) := by
  refine ⟨by decide, by decide, by decide, by decide, by decide, ?_, ?_⟩
  · intro s hs
    simp only [List.mem_cons, List.not_mem_nil, or_false, not_or] at hs
    obtain ⟨h1, h2, h3, h4, h5⟩ := hs
    simp [mapStatus, h1, h2, h3, h4, h5]
  · intro s
    unfold mapStatus
    split_ifs <;> simp

/-- Witness for C2 at a string outside the backend vocabulary. -/
theorem mapStatus_total_spec_witness :
    ("archived" : String)
      ∉ (["pending", "reviewed", "interview", "rejected", "accepted"] : List String) ∧
    mapStatus "archived" = "applied" :=
  ⟨by decide, mapStatus_total_spec.2.2.2.2.2.1 "archived" (by decide)⟩

/-- C3: for every record list, every status filter of the UI vocabulary
plus all, and every query, the filtered list is exactly the sublist of
records satisfying the conjunction of the status predicate and the
case-insensitive search predicate, and filtering is idempotent. -/
theorem filteredApplications_conj_idem (apps : List Application) (f q : String)
    (_hf : f ∈ (["all", "applied", "interview", "offer", "rejected"] : List String)) :
    filteredApplications f q apps
      = apps.filter (fun a => specStatusPred f a && specSearchPred q a) ∧
    filteredApplications f q (filteredApplications f q apps)
      = filteredApplications f q apps := by
  have hfun : applicationFilter f q = fun a => specStatusPred f a && specSearchPred q a :=
    funext (applicationFilter_eq_conj f q)
  constructor
  · rw [filteredApplications, hfun]
  · rw [filteredApplications, filteredApplications, filter_self_idem]

/-- Witness for C3 on a one-record list with the offer filter. -/
theorem filteredApplications_conj_idem_witness :
    ("offer" : String) ∈ (["all", "applied", "interview", "offer", "rejected"] : List String) ∧
    (filteredApplications "offer" "tech" [sampleApp]
      = [sampleApp].filter (fun a => specStatusPred "offer" a && specSearchPred "tech" a) ∧
    filteredApplications "offer" "tech" (filteredApplications "offer" "tech" [sampleApp])
      = filteredApplications "offer" "tech" [sampleApp]) :=
  ⟨by decide, filteredApplications_conj_idem [sampleApp] "offer" "tech" (by decide)⟩

/-- C9: a record whose nested job reference is null is searched over
empty strings, so every non-empty query excludes it from the filtered
list, even though its table row displays the Unknown Job, Unknown
Company and Unknown Location placeholders. -/
theorem nullJob_search_excludes (app : Application) (hj : app.job = none)
    (f q : String) (hq : q ≠ "") :
    applicationFilter f q app = false ∧
    (∀ apps : List Application, app ∉ filteredApplications f q apps) ∧
    (∀ fmtDate : String → String,
      formatApplicationsForTable fmtDate [app]
        = [⟨app.id, "Unknown Job", "Unknown Company", "Unknown Location",
            mapStatus app.status, fmtDate app.appliedDate⟩]) := by
  have hqe : q.isEmpty = false := by
    rcases Bool.eq_false_or_eq_true q.isEmpty with h | h
    · exact absurd ((String.isEmpty_iff q).mp h) hq
    · exact h
  have hql : (strToLower q).data ≠ [] := by
    intro hnil
    apply hq
    have : q.data.map Char.toLower = [] := hnil
    have hqd : q.data = [] := List.map_eq_nil_iff.mp this
    exact String.ext hqd
  have hinc : ∀ s : String, s.data = [] → strIncludes s (strToLower q) = false := by
    intro s hs
    unfold strIncludes
    rw [hs]
    unfold charsInfix
    cases hpat : (strToLower q).data with
    | nil => exact absurd hpat hql
    | cons c cs => simp [List.isEmpty]
  have hfalse : applicationFilter f q app = false := by
    have h0 : strIncludes (strToLower "") (strToLower q) = false := hinc _ rfl
    by_cases hc : (f != "all" && (mapStatus app.status != f)) = true <;>
      simp [applicationFilter, jobTitleOrEmpty, jobCompanyOrEmpty, jobLocationOrEmpty,
        hj, hqe, hc, h0]
  refine ⟨hfalse, ?_, ?_⟩
  · intro apps hmem
    rw [filteredApplications, List.mem_filter] at hmem
    rw [hfalse] at hmem
    exact absurd hmem.2 (by simp)
  · intro fmtDate
    unfold formatApplicationsForTable
    rw [List.map_singleton, jobTitleOrEmpty, jobCompanyOrEmpty, jobLocationOrEmpty, hj]
    rfl

/-- Witness for C9: the null-job record is excluded even by the query
Unknown Job that its own row displays. -/
theorem nullJob_search_excludes_witness :
    sampleNullJobApp.job = none ∧ ("Unknown Job" : String) ≠ "" ∧
    (applicationFilter "all" "Unknown Job" sampleNullJobApp = false ∧
    (∀ apps : List Application,
      sampleNullJobApp ∉ filteredApplications "all" "Unknown Job" apps) ∧
    (∀ fmtDate : String → String,
      formatApplicationsForTable fmtDate [sampleNullJobApp]
        = [⟨sampleNullJobApp.id, "Unknown Job", "Unknown Company", "Unknown Location",
            mapStatus sampleNullJobApp.status, fmtDate sampleNullJobApp.appliedDate⟩])) :=
  ⟨rfl, by decide,
    nullJob_search_excludes sampleNullJobApp rfl "all" "Unknown Job" (by decide)⟩

/-! ## Correctness of the email matcher against the declarative
pattern -/

/-- Characterisation of the trailing-segment matcher. -/
theorem matchTailSeg_iff (l : List Char) :
    matchTailSeg l = true ↔ ∃ c rest, l = c :: rest ∧ nonSpace c = true := by
  cases l with
  | nil => simp [matchTailSeg]
  | cons c t => simp [matchTailSeg]

/-- Characterisation of the dot-segment matcher. -/
theorem matchDotSeg_iff (l : List Char) :
    matchDotSeg l = true ↔ ∃ rest, l = '.' :: rest ∧ matchTailSeg rest = true := by
  cases l with
  | nil => simp [matchDotSeg]
  | cons c t =>
      simp only [matchDotSeg, Bool.and_eq_true, beq_iff_eq, List.cons.injEq]
      constructor
      · rintro ⟨hc, ht⟩
        exact ⟨t, ⟨hc, rfl⟩, ht⟩
      · rintro ⟨rest, ⟨hc, ht⟩, hm⟩
        exact ⟨hc, ht ▸ hm⟩

/-- Characterisation of the at-segment matcher. -/
theorem matchAtSeg_iff (l : List Char) :
    matchAtSeg l = true ↔ ∃ rest, l = '@' :: rest ∧ matchMidSeg rest = true := by
  cases l with
  | nil => simp [matchAtSeg]
  | cons c t =>
      simp only [matchAtSeg, Bool.and_eq_true, beq_iff_eq, List.cons.injEq]
      constructor
      · rintro ⟨hc, ht⟩
        exact ⟨t, ⟨hc, rfl⟩, ht⟩
      · rintro ⟨rest, ⟨hc, ht⟩, hm⟩
        exact ⟨hc, ht ▸ hm⟩

/-- Characterisation of the plus combinator: it accepts exactly the
lists that split into a non-empty all-non-space prefix and a remainder
accepted by the continuation. -/
theorem plusNonSpaceThen_iff (k : List Char → Bool) (l : List Char) :
    plusNonSpaceThen k l = true ↔
      ∃ a rest, l = a ++ rest ∧ a ≠ [] ∧ (∀ x ∈ a, nonSpace x = true) ∧
        k rest = true := by
  induction l with
  | nil =>
      constructor
      · intro h
        exact absurd h (by simp [plusNonSpaceThen])
      · rintro ⟨a, rest, heq, hne, -, -⟩
        exact absurd (List.append_eq_nil.mp heq.symm).1 hne
  | cons c t ih =>
      constructor
      · intro h
        have h' : nonSpace c = true ∧ (k t = true ∨ plusNonSpaceThen k t = true) := by
          simpa [plusNonSpaceThen, Bool.and_eq_true, Bool.or_eq_true] using h
        rcases h' with ⟨hc, hk | hp⟩
        · exact ⟨[c], t, rfl, by simp, by simpa using hc, hk⟩
        · rcases ih.mp hp with ⟨a, rest, heq, hne, hall, hk⟩
          refine ⟨c :: a, rest, by rw [heq]; rfl, by simp, ?_, hk⟩
          intro x hx
          rcases List.mem_cons.mp hx with hx | hx
          · rw [hx]; exact hc
          · exact hall x hx
      · rintro ⟨a, rest, heq, hne, hall, hk⟩
        cases a with
        | nil => exact absurd rfl hne
        | cons a0 a1 =>
            rw [List.cons_append] at heq
            injection heq with h1 h2
            subst h1
            subst h2
            have hc : nonSpace c = true := hall c (by simp)
            have hrest : k (a1 ++ rest) = true ∨ plusNonSpaceThen k (a1 ++ rest) = true := by
              cases a1 with
              | nil => exact Or.inl (by simpa using hk)
              | cons b0 b1 =>
                  refine Or.inr (ih.mpr ⟨b0 :: b1, rest, rfl, by simp, ?_, hk⟩)
                  intro x hx
                  exact hall x (List.mem_cons_of_mem _ hx)
            simp [plusNonSpaceThen, hc, Bool.or_eq_true, hrest]

/-- Characterisation of the unanchored search. -/
theorem emailSearch_iff (l : List Char) :
    emailSearch l = true ↔ ∃ pre suf, l = pre ++ suf ∧ matchEmailHere suf = true := by
  induction l with
  | nil =>
      constructor
      · intro h
        exact absurd h (by simp [emailSearch])
      · rintro ⟨pre, suf, heq, hm⟩
        have hsuf : suf = [] := (List.append_eq_nil.mp heq.symm).2
        rw [hsuf] at hm
        exact absurd hm (by simp [matchEmailHere, plusNonSpaceThen])
  | cons c t ih =>
      constructor
      · intro h
        have h' : matchEmailHere (c :: t) = true ∨ emailSearch t = true := by
          simpa [emailSearch, Bool.or_eq_true] using h
        rcases h' with hm | hs
        · exact ⟨[], c :: t, rfl, hm⟩
        · rcases ih.mp hs with ⟨pre, suf, heq, hm⟩
          exact ⟨c :: pre, suf, by rw [heq]; rfl, hm⟩
      · rintro ⟨pre, suf, heq, hm⟩
        cases pre with
        | nil =>
            have hsuf : suf = c :: t := by simpa using heq.symm
            subst hsuf
            simp [emailSearch, hm]
        | cons p0 p1 =>
            rw [List.cons_append] at heq
            injection heq with h1 h2
            have hs : emailSearch t = true := ih.mpr ⟨p1, suf, h2, hm⟩
            simp [emailSearch, hs]

/-- The executable regex test accepts exactly the strings satisfying
the declarative email pattern. -/
theorem emailRegexTest_iff (s : String) :
    emailRegexTest s = true ↔ EmailPatternSpec s := by
  unfold emailRegexTest EmailPatternSpec
  rw [emailSearch_iff]
  constructor
  · rintro ⟨pre, suf, heq, hm⟩
    unfold matchEmailHere at hm
    rcases (plusNonSpaceThen_iff _ _).mp hm with ⟨a, rest1, h1, hane, haall, hat⟩
    rcases (matchAtSeg_iff _).mp hat with ⟨rest2, h2, hmid⟩
    unfold matchMidSeg at hmid
    rcases (plusNonSpaceThen_iff _ _).mp hmid with ⟨b, rest3, h3, hbne, hball, hdot⟩
    rcases (matchDotSeg_iff _).mp hdot with ⟨rest4, h4, htail⟩
    rcases (matchTailSeg_iff _).mp htail with ⟨c, post, h5, hc⟩
    refine ⟨pre, a, b, c, post, ?_, hane, hbne, haall, hball, hc⟩
    rw [heq, h1, h2, h3, h4, h5]
  · rintro ⟨pre, a, b, c, post, heq, hane, hbne, haall, hball, hc⟩
    refine ⟨pre, a ++ ('@' :: (b ++ ('.' :: (c :: post)))), heq, ?_⟩
    unfold matchEmailHere
    refine (plusNonSpaceThen_iff _ _).mpr ⟨a, _, rfl, hane, haall, ?_⟩
    refine (matchAtSeg_iff _).mpr ⟨_, rfl, ?_⟩
    unfold matchMidSeg
    refine (plusNonSpaceThen_iff _ _).mpr ⟨b, _, rfl, hbne, hball, ?_⟩
    refine (matchDotSeg_iff _).mpr ⟨_, rfl, ?_⟩
    exact (matchTailSeg_iff _).mpr ⟨c, post, rfl, hc⟩

/-- C8: for every email string, validateForm reports Email is required
exactly when the email is empty after trimming, reports Email is
invalid exactly when it is non-empty and fails the declarative
non-space at non-space dot non-space pattern, reports no email error
exactly when it is non-empty and matches, and no other email error
value is possible. -/
theorem validateForm_email_cases (fd : FormFields) :
    ((validateForm fd).email = some "Email is required" ↔
      (strTrim fd.email).isEmpty = true) ∧
    ((validateForm fd).email = some "Email is invalid" ↔
      ((strTrim fd.email).isEmpty = false ∧ ¬ EmailPatternSpec fd.email)) ∧
    ((validateForm fd).email = none ↔
      ((strTrim fd.email).isEmpty = false ∧ EmailPatternSpec fd.email)) ∧
    ((validateForm fd).email = none ∨
      (validateForm fd).email = some "Email is required" ∨
      (validateForm fd).email = some "Email is invalid") := by
  have hiff := emailRegexTest_iff fd.email
  have hne : ("Email is required" : String) ≠ "Email is invalid" := by decide
  by_cases h1 : (strTrim fd.email).isEmpty = true <;>
    by_cases h2 : emailRegexTest fd.email = true <;>
      simp [validateForm, h1, h2, hne, ← hiff]

/-- C1 (amended): well-formed inputs validate cleanly and submission
proceeds to a network call; each of fullName, phone, and resume
produces its error key exactly when omitted; the email error key is
present exactly when email is omitted provided a present email is
well-formed; whenever any error key is present, handleSubmit stops with
the validation errors and performs no network call; and the concrete
scenario yields exactly the Full name is required key. -/
theorem validateForm_omitted_fields (fd : FormFields) :
    (wellFormedInput fd = true →
      (validateForm fd).isEmpty = true ∧
      ∀ (jobId : String) (env : SubmitEnv), jobId ≠ "" →
        (handleSubmit jobId fd env).calls ≠ []) ∧
    ((validateForm fd).fullName.isSome = fullNameOmitted fd) ∧
    ((validateForm fd).phone.isSome = phoneOmitted fd) ∧
    ((validateForm fd).resume.isSome = resumeOmitted fd) ∧
    ((emailOmitted fd = true ∨ emailRegexTest fd.email = true) →
      (validateForm fd).email.isSome = emailOmitted fd) ∧
    ((validateForm fd).isEmpty = false →
      ∀ (jobId : String) (env : SubmitEnv),
        handleSubmit jobId fd env
          = ⟨[], false, SubmitResult.validationFailed (validateForm fd)⟩) ∧
    validateForm ⟨"", "a@b.com", "555", "cv.pdf", ""⟩
      = ⟨some "Full name is required", none, none, none⟩ := by
  refine ⟨?_, ?_, ?_, ?_, ?_, ?_, by decide⟩
  · intro hwf
    have h := hwf
    unfold wellFormedInput fullNameOmitted emailOmitted phoneOmitted resumeOmitted at h
    simp only [Bool.and_eq_true, Bool.not_eq_true'] at h
    obtain ⟨⟨⟨⟨h1, h2⟩, h3⟩, h4⟩, h5⟩ := h
    have hv : (validateForm fd).isEmpty = true := by
      simp [validateForm, FormErrors.isEmpty, h1, h2, h3, h4, h5]
    refine ⟨hv, ?_⟩
    intro jobId env hj
    have hje : jobId.isEmpty = false := by
      rcases Bool.eq_false_or_eq_true jobId.isEmpty with h | h
      · exact absurd ((String.isEmpty_iff jobId).mp h) hj
      · exact h
    cases hp : env.primary with
    | ok r =>
        simp [handleSubmit, hv, hje, hp, finishSubmit]
        cases processResponse r <;> simp
    | fail m =>
        cases hf : env.fallback with
        | ok r =>
            simp [handleSubmit, hv, hje, hp, hf, finishSubmit]
            cases processResponse r <;> simp
        | fail m2 => simp [handleSubmit, hv, hje, hp, hf]
  · unfold fullNameOmitted
    by_cases h : (strTrim fd.fullName).isEmpty = true <;> simp [validateForm, h]
  · unfold phoneOmitted
    by_cases h : (strTrim fd.phone).isEmpty = true <;> simp [validateForm, h]
  · unfold resumeOmitted
    by_cases h : fd.resume.isEmpty = true <;> simp [validateForm, h]
  · intro h
    unfold emailOmitted at h ⊢
    by_cases h1 : (strTrim fd.email).isEmpty = true
    · simp [validateForm, h1]
    · rcases h with h | h
      · exact absurd h h1
      · simp [validateForm, h1, h]
  · intro hne jobId env
    simp [handleSubmit, hne]

/-- Witness for C1: the theorem applied at a well-formed input and at
the scenario input of the claim. -/
theorem validateForm_omitted_fields_witness :
    wellFormedInput ⟨"Jane", "a@b.com", "555", "cv.pdf", ""⟩ = true ∧
    (validateForm ⟨"Jane", "a@b.com", "555", "cv.pdf", ""⟩).isEmpty = true ∧
    (validateForm ⟨"", "a@b.com", "555", "cv.pdf", ""⟩).isEmpty = false ∧
    handleSubmit "j1" ⟨"", "a@b.com", "555", "cv.pdf", ""⟩
        ⟨FetchOutcome.fail "", FetchOutcome.fail ""⟩
      = ⟨[], false, SubmitResult.validationFailed
          (validateForm ⟨"", "a@b.com", "555", "cv.pdf", ""⟩)⟩ ∧
    (handleSubmit "j1" ⟨"Jane", "a@b.com", "555", "cv.pdf", ""⟩
        ⟨FetchOutcome.fail "", FetchOutcome.fail ""⟩).calls ≠ [] :=
  ⟨by decide,
   ((validateForm_omitted_fields _).1 (by decide)).1,
   by decide,
   (validateForm_omitted_fields _).2.2.2.2.2.1 (by decide) "j1"
     ⟨FetchOutcome.fail "", FetchOutcome.fail ""⟩,
   ((validateForm_omitted_fields _).1 (by decide)).2 "j1"
     ⟨FetchOutcome.fail "", FetchOutcome.fail ""⟩ (by decide)⟩

/-- C1 as literally stated is false: this input omits only the
fullName field, yet the error-key set also contains the email key,
because a present but malformed email is reported in the same pass. -/
theorem validateForm_omitted_fields_cex :
    fullNameOmitted ⟨"", "abc", "1", "r.pdf", ""⟩ = true ∧
    emailOmitted ⟨"", "abc", "1", "r.pdf", ""⟩ = false ∧
    phoneOmitted ⟨"", "abc", "1", "r.pdf", ""⟩ = false ∧
    resumeOmitted ⟨"", "abc", "1", "r.pdf", ""⟩ = false ∧
    validateForm ⟨"", "abc", "1", "r.pdf", ""⟩
      = ⟨some "Full name is required", some "Email is invalid", none, none⟩ := by
  decide

/-! ## Response-validation and submission-protocol theorems -/

/-- The fetch calls recorded by finishSubmit do not depend on how the
response is processed. -/
theorem finishSubmit_calls (calls : List (String × Payload)) (uf : Bool)
    (r : NetResponse) : (finishSubmit calls uf r).calls = calls := by
  unfold finishSubmit
  cases processResponse r <;> rfl

/-- The submitter validation accepts exactly the responses with a JSON
content type, a parsable body and a successful status, yielding the
parsed body. -/
theorem submitterValidate_ok_iff (r : NetResponse) (d : JsValue) :
    submitterValidate r = Except.ok d ↔
      (ctIncludesJson r.contentType = true ∧ r.jsonBody = Except.ok d ∧
        respOk r.status = true) := by
  unfold submitterValidate
  cases hct : ctIncludesJson r.contentType with
  | false => simp [hct]
  | true =>
      cases hb : r.jsonBody with
      | error m => simp [hb]
      | ok data =>
          cases hs : respOk r.status with
          | false => simp [hb, hs]
          | true => simp [hb, hs, eq_comm]

/-- The viewer validation accepts exactly the responses with a
successful status, a JSON content type and a parsable body, yielding
the parsed body. -/
theorem viewerValidate_ok_iff (r : NetResponse) (d : JsValue) :
    viewerValidate r = Except.ok d ↔
      (respOk r.status = true ∧ ctIncludesJson r.contentType = true ∧
        r.jsonBody = Except.ok d) := by
  unfold viewerValidate
  cases hs : respOk r.status with
  | false => simp [hs]
  | true =>
      cases hct : ctIncludesJson r.contentType with
      | false => simp [hct]
      | true => simp [hct]

/-- C6 (amended): both components run the same three checks and accept
exactly the same responses, with the same parsed value, but in
different orders — the Viewer checks the HTTP status first while the
Submitter checks the content type first, then parses, then checks the
status — so rejected responses can be classified and worded
differently. -/
theorem responseValidation_compare (r : NetResponse) :
    (respOk r.status = false →
      viewerValidate r
        = Except.error ("Failed to fetch applications: " ++ toString r.status)) ∧
    (ctIncludesJson r.contentType = false →
      submitterValidate r
        = Except.error ("Server returned non-JSON response (" ++ toString r.status
            ++ "). Please check server logs.")) ∧
    (∀ d : JsValue,
      viewerValidate r = Except.ok d ↔ submitterValidate r = Except.ok d) ∧
    (∀ d : JsValue, viewerValidate r = Except.ok d ↔
      (respOk r.status = true ∧ ctIncludesJson r.contentType = true ∧
        r.jsonBody = Except.ok d)) := by
  refine ⟨?_, ?_, ?_, fun d => viewerValidate_ok_iff r d⟩
  · intro h
    simp [viewerValidate, h]
  · intro h
    simp [submitterValidate, h]
  · intro d
    rw [viewerValidate_ok_iff, submitterValidate_ok_iff]
    tauto

/-- Witness for C6 at a non-JSON failure response and at a fully
successful response. -/
theorem responseValidation_compare_witness :
    respOk 500 = false ∧
    ctIncludesJson (some "text/html") = false ∧
    viewerValidate ⟨500, some "text/html", Except.ok JsValue.vNull⟩
      = Except.error "Failed to fetch applications: 500" ∧
    submitterValidate ⟨500, some "text/html", Except.ok JsValue.vNull⟩
      = Except.error "Server returned non-JSON response (500). Please check server logs." ∧
    (viewerValidate ⟨200, some "application/json", Except.ok JsValue.vNull⟩
        = Except.ok JsValue.vNull ↔
      submitterValidate ⟨200, some "application/json", Except.ok JsValue.vNull⟩
        = Except.ok JsValue.vNull) :=
  ⟨by decide, by decide,
   (responseValidation_compare ⟨500, some "text/html", Except.ok JsValue.vNull⟩).1 (by decide),
   (responseValidation_compare ⟨500, some "text/html", Except.ok JsValue.vNull⟩).2.1 (by decide),
   (responseValidation_compare ⟨200, some "application/json",
      Except.ok JsValue.vNull⟩).2.2.1 JsValue.vNull⟩

/-- C6 as stated is false: the two validations run their checks in
different orders, so the same failing response is classified
differently — a 500 text/html response trips the Viewer's status check
but the Submitter's content-type check, and a 500 JSON response with an
error field produces the server-provided message in the Submitter but
the generic status message in the Viewer. -/
theorem responseValidation_compare_cex :
    viewerValidate ⟨500, some "text/html", Except.ok JsValue.vNull⟩
      = Except.error "Failed to fetch applications: 500" ∧
    submitterValidate ⟨500, some "text/html", Except.ok JsValue.vNull⟩
      = Except.error "Server returned non-JSON response (500). Please check server logs." ∧
    ("Failed to fetch applications: 500" : String)
      ≠ "Server returned non-JSON response (500). Please check server logs." ∧
    viewerValidate ⟨500, some "application/json",
        Except.ok (JsValue.vObj [("error", JsValue.vStr "boom")])⟩
      = Except.error "Failed to fetch applications: 500" ∧
    submitterValidate ⟨500, some "application/json",
        Except.ok (JsValue.vObj [("error", JsValue.vStr "boom")])⟩
      = Except.error "boom" :=
  ⟨rfl, rfl, by decide, rfl, rfl⟩

/-- C5 (amended): the success-shape check is necessary for success —
whenever the parsed body lacks a truthy application with a truthy id,
success is never signalled, and if the HTTP status and content type
were acceptable the failure carries the server-returned-invalid-data
message (a non-2xx status produces the server-error message instead);
conversely any signalled success implies the shape check passed and the
id is the body's application id. -/
theorem submissionShape_necessary (r : NetResponse) (data : JsValue)
    (hd : r.jsonBody = Except.ok data) :
    (validShape data = false →
      (∀ idv : JsValue, processResponse r ≠ Except.ok idv) ∧
      (respOk r.status = true → ctIncludesJson r.contentType = true →
        processResponse r
          = Except.error "Server returned invalid data. Please try again.") ∧
      (∀ (jobId : String) (fd : FormFields) (env : SubmitEnv) (uf : Bool)
        (idv : JsValue), env.primary = FetchOutcome.ok r →
        (handleSubmit jobId fd env).result ≠ SubmitResult.completed idv uf)) ∧
    (∀ idv : JsValue, processResponse r = Except.ok idv →
      validShape data = true ∧ idv = appIdOf data) := by
  have hbody : ∀ d : JsValue, submitterValidate r = Except.ok d → d = data := by
    intro d hsv
    have hbd := ((submitterValidate_ok_iff r d).mp hsv).2.1
    rw [hd] at hbd
    exact (Except.ok.inj hbd).symm
  constructor
  · intro hshape
    have hnok : ∀ idv : JsValue, processResponse r ≠ Except.ok idv := by
      intro idv h
      unfold processResponse at h
      cases hsv : submitterValidate r with
      | error m => rw [hsv] at h; exact Except.noConfusion h
      | ok d =>
          rw [hsv] at h
          rw [hbody d hsv] at h
          simp [hshape] at h
    refine ⟨hnok, ?_, ?_⟩
    · intro hs hct
      have hsv : submitterValidate r = Except.ok data :=
        (submitterValidate_ok_iff r data).mpr ⟨hct, hd, hs⟩
      unfold processResponse
      rw [hsv]
      simp [hshape]
    · intro jobId fd env uf idv hp h
      unfold handleSubmit at h
      cases hvb : (validateForm fd).isEmpty with
      | false => simp [hvb] at h
      | true =>
          cases hje : jobId.isEmpty with
          | true => simp [hvb, hje] at h
          | false =>
              rw [hp] at h
              simp only [hvb, hje, Bool.not_false, Bool.not_true, if_false, if_true,
                Bool.false_eq_true, Bool.true_eq_false] at h
              cases hpr : processResponse r with
              | error m => simp [finishSubmit, hpr] at h
              | ok idv2 => exact hnok idv2 hpr
  · intro idv h
    unfold processResponse at h
    cases hsv : submitterValidate r with
    | error m => rw [hsv] at h; exact Except.noConfusion h
    | ok d =>
        rw [hsv] at h
        rw [hbody d hsv] at h
        cases hval : validShape data with
        | false => simp [hval] at h
        | true =>
            simp [hval] at h
            exact ⟨rfl, h.symm⟩

/-- Witness for C5 at a shapeless body and at the scenario body with
application id x1. -/
theorem submissionShape_necessary_witness :
    (⟨400, some "application/json", Except.ok (JsValue.vObj [])⟩ : NetResponse).jsonBody
      = Except.ok (JsValue.vObj []) ∧
    validShape (JsValue.vObj []) = false ∧
    processResponse ⟨400, some "application/json", Except.ok (JsValue.vObj [])⟩
      ≠ Except.ok (JsValue.vStr "x1") ∧
    (processResponse fallbackScenarioResponse
        = Except.ok (JsValue.vStr "x1") →
      validShape (JsValue.vObj [("application", JsValue.vObj [("id", JsValue.vStr "x1")])])
          = true ∧
        JsValue.vStr "x1"
          = appIdOf (JsValue.vObj [("application", JsValue.vObj [("id", JsValue.vStr "x1")])])) :=
  ⟨rfl, rfl,
   ((submissionShape_necessary
      ⟨400, some "application/json", Except.ok (JsValue.vObj [])⟩
      (JsValue.vObj []) rfl).1 rfl).1 (JsValue.vStr "x1"),
   (submissionShape_necessary fallbackScenarioResponse
      (JsValue.vObj [("application", JsValue.vObj [("id", JsValue.vStr "x1")])]) rfl).2
     (JsValue.vStr "x1")⟩

/-- C5 as stated is false: a parsed body lacking the application object
does make the submission fail, but when the HTTP status is non-2xx the
error is the server-error message, not the invalid-data message the
claim requires regardless of status. -/
theorem submissionShape_necessary_cex :
    validShape (JsValue.vObj []) = false ∧
    processResponse ⟨400, some "application/json", Except.ok (JsValue.vObj [])⟩
      = Except.error "Server returned error (400)" ∧
    (handleSubmit "j1" sampleGoodForm
        ⟨FetchOutcome.ok ⟨400, some "application/json", Except.ok (JsValue.vObj [])⟩,
          FetchOutcome.fail ""⟩).result
      = SubmitResult.failed "Server returned error (400)" false ∧
    ("Server returned error (400)" : String)
      ≠ "Server returned invalid data. Please try again." :=
  ⟨rfl, rfl, rfl, by decide⟩

/-- C4: after a primary transport failure, handleSubmit retries exactly
once against the fallback endpoint with the identical payload; any
fallback response marks the outcome as fallback-used; and the scenario
response (201, body application id x1) completes with id x1 and shows
the test-mode notice. -/
theorem handleSubmit_fallback (jobId : String) (fd : FormFields) (env : SubmitEnv)
    (m : String) (hv : (validateForm fd).isEmpty = true) (hj : jobId ≠ "")
    (hp : env.primary = FetchOutcome.fail m) :
    (handleSubmit jobId fd env).calls
      = [("/api/applications", mkPayload jobId fd),
         ("/api/test-application", mkPayload jobId fd)] ∧
    (∀ r : NetResponse, env.fallback = FetchOutcome.ok r →
      SubmitResult.usedFlag (handleSubmit jobId fd env).result = true) ∧
    (env.fallback = FetchOutcome.ok fallbackScenarioResponse →
      (handleSubmit jobId fd env).result
          = SubmitResult.completed (JsValue.vStr "x1") true ∧
        (handleSubmit jobId fd env).alertTestMode = true) := by
  have hje : jobId.isEmpty = false := by
    rcases Bool.eq_false_or_eq_true jobId.isEmpty with h | h
    · exact absurd ((String.isEmpty_iff jobId).mp h) hj
    · exact h
  refine ⟨?_, ?_, ?_⟩
  · cases hf : env.fallback with
    | ok r => simp [handleSubmit, hv, hje, hp, hf, finishSubmit_calls]
    | fail m2 => simp [handleSubmit, hv, hje, hp, hf]
  · intro r hf
    simp only [handleSubmit, hv, hje, hp, hf, Bool.not_true, Bool.not_false,
      if_false, if_true, Bool.false_eq_true, Bool.true_eq_false]
    unfold finishSubmit
    cases hpr : processResponse r <;> simp [SubmitResult.usedFlag]
  · intro hf
    have hpr : processResponse fallbackScenarioResponse
        = Except.ok (JsValue.vStr "x1") := rfl
    constructor <;>
      simp [handleSubmit, hv, hje, hp, hf, finishSubmit, hpr]

/-- Witness for C4 at the concrete scenario of the claim. -/
theorem handleSubmit_fallback_witness :
    (validateForm sampleGoodForm).isEmpty = true ∧
    ("j1" : String) ≠ "" ∧
    (handleSubmit "j1" sampleGoodForm
        ⟨FetchOutcome.fail "boom", FetchOutcome.ok fallbackScenarioResponse⟩).calls
      = [("/api/applications", mkPayload "j1" sampleGoodForm),
         ("/api/test-application", mkPayload "j1" sampleGoodForm)] ∧
    (handleSubmit "j1" sampleGoodForm
        ⟨FetchOutcome.fail "boom", FetchOutcome.ok fallbackScenarioResponse⟩).result
      = SubmitResult.completed (JsValue.vStr "x1") true ∧
    (handleSubmit "j1" sampleGoodForm
        ⟨FetchOutcome.fail "boom", FetchOutcome.ok fallbackScenarioResponse⟩).alertTestMode
      = true :=
  ⟨by decide, by decide,
   (handleSubmit_fallback "j1" sampleGoodForm
      ⟨FetchOutcome.fail "boom", FetchOutcome.ok fallbackScenarioResponse⟩
      "boom" (by decide) (by decide) rfl).1,
   ((handleSubmit_fallback "j1" sampleGoodForm
      ⟨FetchOutcome.fail "boom", FetchOutcome.ok fallbackScenarioResponse⟩
      "boom" (by decide) (by decide) rfl).2.2 rfl).1,
   ((handleSubmit_fallback "j1" sampleGoodForm
      ⟨FetchOutcome.fail "boom", FetchOutcome.ok fallbackScenarioResponse⟩
      "boom" (by decide) (by decide) rfl).2.2 rfl).2⟩

/-- C7: every failure of the viewer fetch — transport failure, bad
status, non-JSON content type, or parse failure — replaces the list
with the non-empty mock dataset, records the failure message, and sets
no page error; the content-type failure logs its own distinct
message. -/
theorem fetchApplications_fallback (env : ViewerEnv) (t : String)
    (ht : env.token = some t) :
    (∀ m, env.fetch = FetchOutcome.fail m →
      fetchApplications env
        = ⟨mockApplicationsJs env.nowIso env.weekAgoIso, none, some m⟩) ∧
    (∀ r : NetResponse, env.fetch = FetchOutcome.ok r → respOk r.status = false →
      fetchApplications env
        = ⟨mockApplicationsJs env.nowIso env.weekAgoIso, none,
            some ("Failed to fetch applications: " ++ toString r.status)⟩) ∧
    (∀ r : NetResponse, env.fetch = FetchOutcome.ok r → respOk r.status = true →
      ctIncludesJson r.contentType = false →
      fetchApplications env
        = ⟨mockApplicationsJs env.nowIso env.weekAgoIso, none,
            some "Server returned non-JSON response"⟩) ∧
    (∀ (r : NetResponse) (m : String), env.fetch = FetchOutcome.ok r →
      respOk r.status = true → ctIncludesJson r.contentType = true →
      r.jsonBody = Except.error m →
      fetchApplications env
        = ⟨mockApplicationsJs env.nowIso env.weekAgoIso, none, some m⟩) ∧
    mockApplicationsJs env.nowIso env.weekAgoIso ≠ [] ∧
    (∀ s : Nat, ("Server returned non-JSON response" : String)
      ≠ "Failed to fetch applications: " ++ toString s) := by
  refine ⟨?_, ?_, ?_, ?_, by simp [mockApplicationsJs], ?_⟩
  · intro m hm
    simp [fetchApplications, ht, hm, innerFetch]
  · intro r hr hs
    simp [fetchApplications, ht, hr, innerFetch, viewerValidate, hs]
  · intro r hr hs hct
    simp [fetchApplications, ht, hr, innerFetch, viewerValidate, hs, hct]
  · intro r m hr hs hct hb
    simp [fetchApplications, ht, hr, innerFetch, viewerValidate, hs, hct, hb]
  · intro s h
    have h2 : some 'S' = some 'F' :=
      congrArg (fun str : String => str.data.head?) h
    simp at h2

/-- Witness for C7 at the text/html scenario of the claim. -/
theorem fetchApplications_fallback_witness :
    sampleBadCtEnv.token = some "tok" ∧
    respOk 200 = true ∧
    ctIncludesJson (some "text/html") = false ∧
    fetchApplications sampleBadCtEnv
      = ⟨mockApplicationsJs sampleBadCtEnv.nowIso sampleBadCtEnv.weekAgoIso, none,
          some "Server returned non-JSON response"⟩ :=
  ⟨rfl, by decide, by decide,
   (fetchApplications_fallback sampleBadCtEnv "tok" rfl).2.2.1
     ⟨200, some "text/html", Except.ok JsValue.vNull⟩ rfl (by decide) (by decide)⟩

/-- Reading a field of a value other than null never throws and agrees
with the undefined-safe access. -/
theorem getFieldUnguarded_of_ne_null (data : JsValue) (k : String)
    (h : data ≠ JsValue.vNull) :
    getFieldUnguarded data k = Except.ok (data.getField k) := by
  cases data <;> first | exact absurd rfl h | rfl

/-- C10 (amended): when the viewer fetch passes all three checks but
the parsed body has no applications array, then if the body is not
null the list is set to the empty list with no mock substitution and
no error recorded; if the body is null, the unguarded
data.applications access throws inside the inner try, so the mock
dataset is substituted and the failure is logged instead. -/
theorem fetchApplications_emptyList (env : ViewerEnv) (t : String) (r : NetResponse)
    (data : JsValue) (ht : env.token = some t) (hr : env.fetch = FetchOutcome.ok r)
    (hs : respOk r.status = true) (hct : ctIncludesJson r.contentType = true)
    (hb : r.jsonBody = Except.ok data)
    (hshape : ∀ l : List JsValue, data.getField "applications" ≠ some (JsValue.vArr l)) :
    (data ≠ JsValue.vNull → fetchApplications env = ⟨[], none, none⟩) ∧
    (data = JsValue.vNull →
      (fetchApplications env).apps = mockApplicationsJs env.nowIso env.weekAgoIso ∧
      (fetchApplications env).fetchErrorLog.isSome = true ∧
      (fetchApplications env).pageError = none) := by
  constructor
  · intro hnn
    have hfield : getFieldUnguarded data "applications"
        = Except.ok (data.getField "applications") :=
      getFieldUnguarded_of_ne_null data "applications" hnn
    have harr : appsArrayOfField (data.getField "applications") = [] := by
      unfold appsArrayOfField
      cases hx : data.getField "applications" with
      | none => rfl
      | some v => cases v <;> first | rfl | exact absurd hx (hshape _)
    simp [fetchApplications, ht, innerFetch, hr, viewerValidate, hs, hct, hb,
      hfield, harr]
  · intro hnn
    subst hnn
    refine ⟨?_, ?_, ?_⟩ <;>
      simp [fetchApplications, ht, innerFetch, hr, viewerValidate, hs, hct, hb,
        getFieldUnguarded]

/-- Witness for C10 at a successful response whose body is an object
without an applications field. -/
theorem fetchApplications_emptyList_witness :
    (JsValue.vObj []).getField "applications" = none ∧
    (JsValue.vObj [] : JsValue) ≠ JsValue.vNull ∧
    fetchApplications sampleNoArrayEnv = ⟨[], none, none⟩ :=
  ⟨rfl, fun h => JsValue.noConfusion h,
   (fetchApplications_emptyList sampleNoArrayEnv "tok"
     ⟨200, some "application/json", Except.ok (JsValue.vObj [])⟩ (JsValue.vObj [])
     rfl rfl (by decide) (by decide) rfl
     (fun l h => Option.noConfusion h)).1 (fun h => JsValue.noConfusion h)⟩

/-- C10 as stated is false: a fully successful response whose parsed
body is the JSON value null lacks an applications field, yet the
unguarded data.applications access throws, the inner catch substitutes
the non-empty mock dataset, and the failure is logged — the list is
not set to empty. -/
theorem fetchApplications_emptyList_cex :
    JsValue.vNull.getField "applications" = none ∧
    (fetchApplications sampleNullBodyEnv).apps
      = mockApplicationsJs "2024-01-01T00:00:00Z" "2023-12-25T00:00:00Z" ∧
    (fetchApplications sampleNullBodyEnv).apps.length = 2 ∧
    (fetchApplications sampleNullBodyEnv).apps ≠ [] ∧
    (fetchApplications sampleNullBodyEnv).fetchErrorLog.isSome = true ∧
    (fetchApplications sampleNullBodyEnv).pageError = none := by
  refine ⟨rfl, rfl, rfl, ?_, rfl, rfl⟩
  intro h
  exact absurd (congrArg List.length h) (by decide)

end JobPortal
